import Mathlib

/-!
Shallow embedding of the taxi-dashboard data pipeline from
src/streamlit_app.py (pandas-based Streamlit app), together with proofs
about its ingestion and aggregation behaviour.

Modelling conventions:
* A pandas DataFrame is a column-oriented table: an ordered list of
  (column name, list of cell values).  Cell values are rationals (numeric
  cells), strings, parsed timestamps, or null (NaN/NaT).
* Machine floats are modelled by exact rationals, except where IEEE
  non-finite results matter (division by a zero total); there the value
  space is extended with inf/neginf/nan (type PFloat).
* pd.to_datetime(errors=coerce) is modelled by a minute-resolution
  ISO-format parser: unparsable strings become null, exactly as the
  coerce mode turns them into NaT.
* pd.to_numeric(errors=coerce).fillna(0) is modelled by sanitizeCell,
  with a decimal-literal parser standing for numeric coercion of strings.
* groupby drops null keys (pandas dropna=True); group key order is
  first-encounter de-duplication (pandas sorts keys, but no theorem
  below depends on row order of grouped results).
* The guarded st.error paths of the script are the reported error
  RunError.columnNotFound; an uncaught pandas KeyError escaping an
  analysis function is RunError.keyError.
-/

namespace TaxiApp

/-- A parsed timestamp, minute resolution, as produced by the datetime
parser (pandas Timestamp components; hour and minute are range-bounded
by construction, as they are for pd.Timestamp). -/
structure DateTime where
  year : Nat
  month : Nat
  day : Nat
  hour : Fin 24
  minute : Fin 60
deriving DecidableEq

/-- One cell of a DataFrame column. `null` stands for NaN/NaT/missing. -/
inductive CellVal where
  | num (q : Rat)
  | str (s : String)
  | dt (t : DateTime)
  | null
deriving DecidableEq

/-- A DataFrame: ordered association list of named columns. -/
abbrev Table := List (String × List CellVal)

def names (t : Table) : List String := t.map Prod.fst

def getCol : Table → String → Option (List CellVal)
  | [], _ => none
  | (n, col) :: rest, c => if n = c then some col else getCol rest c

def colD (t : Table) (c : String) : List CellVal := (getCol t c).getD []

/-- Replacement of every column entry named c by the new values. -/
def assignFn (c : String) (vs : List CellVal) :
    (String × List CellVal) → (String × List CellVal) :=
  fun p => if p.1 = c then (c, vs) else p

/-- Column assignment `data[c] = vs`: replace the column if present,
append it otherwise. -/
def setCol (t : Table) (c : String) (vs : List CellVal) : Table :=
  if c ∈ names t then t.map (assignFn c vs) else t ++ [(c, vs)]

/-- Number of rows of the table (length of its first column). -/
def nRows : Table → Nat
  | [] => 0
  | p :: _ => p.2.length

/-- Well-formedness: every column has the same length. -/
def WF (t : Table) : Prop := ∀ p ∈ t, p.2.length = nRows t

instance decWF (t : Table) : Decidable (WF t) :=
  inferInstanceAs (Decidable (∀ p ∈ t, p.2.length = nRows t))

/- ### Numeric and datetime parsing -/

def digitVal (c : Char) : Nat := c.toNat - 48

def dig2 (a b : Char) : Nat := 10 * digitVal a + digitVal b

def dig4 (a b c d : Char) : Nat :=
  1000 * digitVal a + 100 * digitVal b + 10 * digitVal c + digitVal d

def isLeap (y : Nat) : Bool := y % 4 = 0 && (y % 100 ≠ 0 || y % 400 = 0)

def daysInMonth (y m : Nat) : Nat :=
  if m = 2 then (if isLeap y then 29 else 28)
  else if m = 4 ∨ m = 6 ∨ m = 9 ∨ m = 11 then 30
  else 31

/-- Model of pd.to_datetime on one string: accepts the minute-resolution
ISO forms YYYY-MM-DD HH:MM and YYYY-MM-DDTHH:MM with field validation;
anything else is unparsable (coerced to null by the caller). -/
def parseDatetime (s : String) : Option DateTime :=
  match s.toList with
  | [y1, y2, y3, y4, c1, m1, m2, c2, d1, d2, sep, h1, h2, c3, n1, n2] =>
    if ([y1, y2, y3, y4, m1, m2, d1, d2, h1, h2, n1, n2].all Char.isDigit)
        && c1 = '-' && c2 = '-' && c3 = ':' && (sep = ' ' || sep = 'T') then
      let y := dig4 y1 y2 y3 y4
      let mo := dig2 m1 m2
      let d := dig2 d1 d2
      let h := dig2 h1 h2
      let mi := dig2 n1 n2
      if hh : h < 24 then
        if hm : mi < 60 then
          if 1 ≤ mo && mo ≤ 12 && 1 ≤ d && d ≤ daysInMonth y mo then
            some ⟨y, mo, d, ⟨h, hh⟩, ⟨mi, hm⟩⟩
          else none
        else none
      else none
    else none
  | _ => none

/-- Days since 1970-01-01 (civil-from-date algorithm). -/
def daysFromCivil (y m d : Nat) : Int :=
  let y2 : Int := (y : Int) - (if m ≤ 2 then 1 else 0)
  let era : Int := (if 0 ≤ y2 then y2 else y2 - 399) / 400
  let yoe : Int := y2 - era * 400
  let mp : Int := ((m : Int) + 9) % 12
  let doy : Int := (153 * mp + 2) / 5 + (d : Int) - 1
  let doe : Int := yoe * 365 + yoe / 4 - yoe / 100 + doy
  era * 146097 + doe - 719468

/-- Minutes since the epoch; timestamp subtraction divided by 60 seconds
(.dt.total_seconds() / 60) is exactly the difference of these. -/
def DateTime.toMin (t : DateTime) : Int :=
  daysFromCivil t.year t.month t.day * 1440 + (t.hour.val : Int) * 60 + (t.minute.val : Int)

/-- pandas .dt.weekday (Monday = 0). 1970-01-01 was a Thursday. -/
def DateTime.weekday (t : DateTime) : Int :=
  (daysFromCivil t.year t.month t.day + 3) % 7

def digitsToNat (cs : List Char) : Nat :=
  cs.foldl (fun a c => 10 * a + digitVal c) 0

/-- Unsigned decimal literal: digits with an optional fractional part. -/
def parseUnsigned (cs : List Char) : Option Rat :=
  match cs.span (fun c => c ≠ '.') with
  | (ip, []) =>
    if ip ≠ [] && ip.all Char.isDigit then some ((digitsToNat ip : Int) : Rat)
    else none
  | (ip, _ :: fp) =>
    if (ip ≠ [] || fp ≠ []) && ip.all Char.isDigit && fp.all Char.isDigit then
      some ((digitsToNat ip : Int) + (digitsToNat fp : Int) / ((10 : Rat) ^ fp.length))
    else none

/-- Model of numeric coercion of a string (pd.to_numeric, errors=coerce):
optionally signed decimal literal; anything else fails (becomes NaN). -/
def parseNum (s : String) : Option Rat :=
  match s.toList with
  | '-' :: rest => (parseUnsigned rest).map (fun q => -q)
  | '+' :: rest => parseUnsigned rest
  | cs => parseUnsigned cs

/- ### Cell-level operations -/

/-- pd.to_datetime(col, errors=coerce) applied to one cell. -/
def toDatetimeCell (v : CellVal) : CellVal :=
  match v with
  | .str s => match parseDatetime s with
    | some t => .dt t
    | none => .null
  | .dt t => .dt t
  | _ => .null

/-- pd.to_numeric(col, errors=coerce).fillna(0) applied to one cell
(datetimes coerce to their epoch integer, as in pandas). -/
def sanitizeCell (v : CellVal) : CellVal :=
  match v with
  | .num q => .num q
  | .str s => match parseNum s with
    | some q => .num q
    | none => .num 0
  | .dt t => .num ((t.toMin : Int) : Rat)
  | .null => .num 0

/-- .dt.hour of one cell: NaT (and non-datetime) gives null. -/
def hourCell : CellVal → CellVal
  | .dt t => .num ((t.hour.val : Int) : Rat)
  | _ => .null

/-- .dt.weekday of one cell. -/
def weekdayCell : CellVal → CellVal
  | .dt t => .num ((t.weekday : Int) : Rat)
  | _ => .null

/-- (dropoff - pickup).dt.total_seconds() / 60 for one row: null unless
both timestamps are present. -/
def durationCell (p d : CellVal) : CellVal :=
  match p, d with
  | .dt a, .dt b => .num ((b.toMin - a.toMin : Int) : Rat)
  | _, _ => .null

/- ### Ingestion (load_data and the upload-size guard) -/

/-- One guarded timestamp conversion of load_data:
`if col in data.columns: data[col] = pd.to_datetime(data[col], errors=coerce)`. -/
def convertCol (t : Table) (c : String) : Table :=
  if c ∈ names t then setCol t c ((colD t c).map toDatetimeCell) else t

/-- The guarded duration derivation of load_data: when both timestamp
columns are present, assign the derived per-row duration column;
otherwise leave the table as is (the column is omitted, not zero-filled). -/
def addDuration (t : Table) : Table :=
  if "tpep_pickup_datetime" ∈ names t ∧ "tpep_dropoff_datetime" ∈ names t then
    setCol t "trip_duration_minutes"
      (List.zipWith durationCell (colD t "tpep_pickup_datetime") (colD t "tpep_dropoff_datetime"))
  else t

/-- Body of load_data after CSV parsing: convert the pickup then the
dropoff timestamp column when present, then derive trip_duration_minutes
when both are present. -/
def load_data (raw : Table) : Table :=
  addDuration (convertCol (convertCol raw "tpep_pickup_datetime") "tpep_dropoff_datetime")

inductive UploadResult where
  | sizeError
  | emptyError
  | ok (t : Table)
deriving DecidableEq

/-- The upload flow around load_data: the 100 KB size guard, then the
emptiness check on the loaded table. -/
def handleUpload (fileSize : Nat) (raw : Table) : UploadResult :=
  if fileSize > 100 * 1024 then .sizeError
  else
    let d := load_data raw
    if nRows d = 0 then .emptyError else .ok d

/- ### Aggregation operations -/

/-- Outcome kind of one analysis: a reported st.error message versus an
uncaught pandas KeyError escaping the analysis function. -/
inductive RunError where
  | columnNotFound
  | keyError
deriving DecidableEq

/-- plot_distribution: on a present column, overwrite it with its
sanitized values and chart them; on an absent column, report the error
and leave the table alone.  Returns the (possibly mutated) table and
the charted series. -/
def plot_distribution (t : Table) (column : String) :
    Table × Except RunError (List CellVal) :=
  match getCol t column with
  | none => (t, .error .columnNotFound)
  | some col =>
    let vs := col.map sanitizeCell
    (setCol t column vs, .ok vs)

/-- Distinct non-null group keys (groupby / value_counts drop nulls). -/
def groupKeys (keyCol : List CellVal) : List CellVal :=
  (keyCol.filter (fun v => v ≠ CellVal.null)).dedup

/-- Numeric reading of a cell inside a sum (pandas sum skips NaN, so
null and non-numeric cells contribute 0). -/
def cellRat : CellVal → Rat
  | .num q => q
  | _ => 0

/-- Sum of the value column over the rows whose key cell equals k. -/
def groupSum (keyCol valCol : List CellVal) (k : CellVal) : Rat :=
  (((keyCol.zip valCol).filter (fun p => p.1 = k)).map (fun p => cellRat p.2)).sum

/-- Float value extended with the IEEE non-finite results that pandas
produces when dividing by a zero total. -/
inductive PFloat where
  | fin (q : Rat)
  | inf
  | neginf
  | nan
deriving DecidableEq

/-- Float division a / b: by zero it gives nan (0/0) or a signed
infinity, never an exception. -/
def ratDiv (a b : Rat) : PFloat :=
  if b = 0 then (if a = 0 then .nan else if 0 < a then .inf else .neginf)
  else .fin (a / b)

/-- Multiplication of a float by the positive constant 100. -/
def pmul100 : PFloat → PFloat
  | .fin q => .fin (q * 100)
  | .inf => .inf
  | .neginf => .neginf
  | .nan => .nan

/-- Grand total as computed by revenue_share_by_pickup_zones: the sum of
the per-group sums of total_amount. -/
def revenueTotal (t : Table) : Rat :=
  ((groupKeys (colD t "PULocationID")).map
    (fun k => groupSum (colD t "PULocationID") (colD t "total_amount") k)).sum

/-- revenue_share_by_pickup_zones: guarded on PULocationID only; the
groupby lookup of total_amount is unguarded, so its absence raises an
uncaught KeyError.  Rows are (zone, sum, percentage-share). -/
def revenue_share_by_pickup_zones (t : Table) :
    Except RunError (List (CellVal × Rat × PFloat)) :=
  if "PULocationID" ∈ names t then
    match getCol t "total_amount" with
    | none => .error .keyError
    | some vcol =>
      let kcol := colD t "PULocationID"
      let total := revenueTotal t
      .ok ((groupKeys kcol).map
        (fun k => (k, groupSum kcol vcol k, pmul100 (ratDiv (groupSum kcol vcol k) total))))
  else .error .columnNotFound

/-- busiest_hours: assigns the derived hour column into the table, then
counts pickups per hour (value_counts drops nulls); reports an error
when the pickup timestamp column is absent. -/
def busiest_hours (t : Table) : Table × Except RunError (List (CellVal × Nat)) :=
  if "tpep_pickup_datetime" ∈ names t then
    let hs := (colD t "tpep_pickup_datetime").map hourCell
    (setCol t "hour" hs, .ok ((groupKeys hs).map (fun k => (k, hs.count k))))
  else (t, .error .columnNotFound)

/-- traffic_heatmap: requires an hour column to already exist in the
table; it then reads the pickup timestamp column unguarded (KeyError if
absent) and counts rows per (hour, weekday) pair. -/
def traffic_heatmap (t : Table) :
    Except RunError (List ((CellVal × CellVal) × Nat)) :=
  if "hour" ∈ names t then
    match getCol t "tpep_pickup_datetime" with
    | none => .error .keyError
    | some pc =>
      let pairs := ((colD t "hour").zip (pc.map weekdayCell)).filter
        (fun p => p.1 ≠ CellVal.null ∧ p.2 ≠ CellVal.null)
      .ok (pairs.dedup.map (fun p => (p, pairs.count p)))
  else .error .columnNotFound

/-- hourly_total_and_tips: assigns the derived hour column, then sums
total_amount and tip_amount per hour present; the two value columns are
looked up unguarded (KeyError when absent).  Rows are
(hour, total sum, tip sum). -/
def hourly_total_and_tips (t : Table) :
    Table × Except RunError (List (CellVal × Rat × Rat)) :=
  if "tpep_pickup_datetime" ∈ names t then
    let hs := (colD t "tpep_pickup_datetime").map hourCell
    let t2 := setCol t "hour" hs
    match getCol t2 "total_amount", getCol t2 "tip_amount" with
    | some tot, some tip =>
      (t2, .ok ((groupKeys hs).map (fun k => (k, groupSum hs tot k, groupSum hs tip k))))
    | _, _ => (t2, .error .keyError)
  else (t, .error .columnNotFound)

/- ### Table lemmas -/

theorem getCol_cons (n : String) (col : List CellVal) (rest : Table) (c : String) :
    getCol ((n, col) :: rest) c = if n = c then some col else getCol rest c := rfl

theorem getCol_cons_hit {n c : String} (col : List CellVal) (rest : Table)
    (h : n = c) : getCol ((n, col) :: rest) c = some col := by
  rw [getCol_cons, if_pos h]

theorem getCol_cons_miss {n c : String} (col : List CellVal) (rest : Table)
    (h : ¬(n = c)) : getCol ((n, col) :: rest) c = getCol rest c := by
  rw [getCol_cons, if_neg h]

theorem assignFn_apply (c : String) (vs : List CellVal) (n : String)
    (col : List CellVal) :
    assignFn c vs (n, col) = if n = c then (c, vs) else (n, col) := rfl

theorem assignFn_hit {c n : String} (vs : List CellVal) (col : List CellVal)
    (h : n = c) : assignFn c vs (n, col) = (c, vs) := by
  rw [assignFn_apply, if_pos h]

theorem assignFn_miss {c n : String} (vs : List CellVal) (col : List CellVal)
    (h : ¬(n = c)) : assignFn c vs (n, col) = (n, col) := by
  rw [assignFn_apply, if_neg h]

theorem getCol_append (t1 t2 : Table) (c : String) :
    getCol (t1 ++ t2) c =
      match getCol t1 c with
      | some v => some v
      | none => getCol t2 c := by
  induction t1 with
  | nil => simp [getCol]
  | cons p rest ih =>
    obtain ⟨n, col⟩ := p
    by_cases h : n = c
    · simp [getCol, h]
    · simp [getCol, h, ih]

theorem getCol_eq_none_iff (t : Table) (c : String) :
    getCol t c = none ↔ c ∉ names t := by
  induction t with
  | nil => simp [getCol, names]
  | cons p rest ih =>
    obtain ⟨n, col⟩ := p
    by_cases h : n = c
    · subst h
      simp [getCol, names]
    · have hcn : ¬(c = n) := fun hc => h hc.symm
      simp [getCol, h, names, ih, hcn]

theorem getCol_isSome_of_mem {t : Table} {c : String} (h : c ∈ names t) :
    ∃ col, getCol t c = some col := by
  cases hg : getCol t c with
  | none => exact absurd ((getCol_eq_none_iff t c).mp hg) (by simp [h])
  | some col => exact ⟨col, rfl⟩

theorem getCol_mem {t : Table} {c : String} {col : List CellVal}
    (h : getCol t c = some col) : (c, col) ∈ t := by
  induction t with
  | nil => simp [getCol] at h
  | cons p rest ih =>
    obtain ⟨n, ncol⟩ := p
    by_cases hn : n = c
    · subst hn
      simp [getCol] at h
      subst h
      exact List.mem_cons_self _ _
    · simp [getCol, hn] at h
      exact List.mem_cons_of_mem _ (ih h)

theorem names_map_assign (t : Table) (c : String) (vs : List CellVal) :
    names (t.map (assignFn c vs)) = names t := by
  unfold names
  rw [List.map_map]
  apply List.map_congr_left
  intro p _
  by_cases hn : p.1 = c
  · simp [assignFn, hn, Function.comp]
  · simp [assignFn, hn, Function.comp]

theorem getCol_map_assign {t : Table} {c : String} (vs : List CellVal)
    (h : c ∈ names t) :
    getCol (t.map (assignFn c vs)) c = some vs := by
  induction t with
  | nil => simp [names] at h
  | cons p rest ih =>
    obtain ⟨n, col⟩ := p
    rw [List.map_cons]
    by_cases hn : n = c
    · rw [assignFn_hit vs col hn]
      exact getCol_cons_hit vs _ rfl
    · have hc : c ∈ names rest := by
        rcases (by simpa [names] using h : c = n ∨ c ∈ names rest) with h1 | h2
        · exact absurd h1.symm hn
        · exact h2
      rw [assignFn_miss vs col hn, getCol_cons_miss _ _ hn, ih hc]

theorem getCol_map_assign_ne {c d : String} (t : Table) (vs : List CellVal)
    (h : d ≠ c) :
    getCol (t.map (assignFn c vs)) d = getCol t d := by
  induction t with
  | nil => simp
  | cons p rest ih =>
    obtain ⟨n, col⟩ := p
    rw [List.map_cons]
    by_cases hn : n = c
    · subst hn
      have hcd : ¬(n = d) := fun hc => h hc.symm
      rw [assignFn_hit vs col rfl, getCol_cons_miss vs _ hcd,
        getCol_cons_miss col rest hcd, ih]
    · rw [assignFn_miss vs col hn, getCol_cons, getCol_cons, ih]

theorem names_setCol_of_mem {t : Table} {c : String} (vs : List CellVal)
    (h : c ∈ names t) : names (setCol t c vs) = names t := by
  simp [setCol, h, names_map_assign]

theorem names_setCol_of_not_mem {t : Table} {c : String} (vs : List CellVal)
    (h : c ∉ names t) : names (setCol t c vs) = names t ++ [c] := by
  unfold setCol
  rw [if_neg h]
  unfold names
  rw [List.map_append]
  rfl

theorem getCol_setCol_self (t : Table) (c : String) (vs : List CellVal) :
    getCol (setCol t c vs) c = some vs := by
  by_cases h : c ∈ names t
  · simp [setCol, h, getCol_map_assign vs h]
  · have hnone : getCol t c = none := (getCol_eq_none_iff t c).mpr h
    simp [setCol, h, getCol_append, hnone, getCol]

theorem getCol_setCol_ne {c d : String} (t : Table) (vs : List CellVal)
    (h : d ≠ c) : getCol (setCol t c vs) d = getCol t d := by
  have hcd : ¬(c = d) := fun hc => h hc.symm
  by_cases hm : c ∈ names t
  · simp [setCol, hm, getCol_map_assign_ne t vs h]
  · unfold setCol
    rw [if_neg hm, getCol_append]
    cases hg : getCol t d with
    | some v => rfl
    | none => simp [getCol, hcd]

theorem mem_names_setCol_self (t : Table) (c : String) (vs : List CellVal) :
    c ∈ names (setCol t c vs) := by
  by_contra h
  have h2 := (getCol_eq_none_iff _ _).mpr h
  rw [getCol_setCol_self] at h2
  exact Option.noConfusion h2

theorem mem_names_setCol_of_mem {t : Table} {d : String} (c : String)
    (vs : List CellVal) (h : d ∈ names t) : d ∈ names (setCol t c vs) := by
  by_cases hm : c ∈ names t
  · rw [names_setCol_of_mem vs hm]; exact h
  · rw [names_setCol_of_not_mem vs hm]; exact List.mem_append_left _ h

theorem not_mem_names_setCol {t : Table} {c d : String} (vs : List CellVal)
    (h1 : d ∉ names t) (h2 : d ≠ c) : d ∉ names (setCol t c vs) := by
  by_cases hm : c ∈ names t
  · rw [names_setCol_of_mem vs hm]; exact h1
  · rw [names_setCol_of_not_mem vs hm]
    intro hmem
    rcases List.mem_append.mp hmem with ha | hb
    · exact h1 ha
    · exact h2 (by simpa using hb)

theorem fst_ne_of_not_mem {t : Table} {c : String} (h : c ∉ names t) :
    ∀ p ∈ t, p.1 ≠ c := by
  intro p hp hc
  exact h (hc ▸ List.mem_map_of_mem Prod.fst hp)

theorem map_assign_of_not_mem {t : Table} {c : String} (ws : List CellVal)
    (h : c ∉ names t) : t.map (assignFn c ws) = t := by
  induction t with
  | nil => rfl
  | cons p rest ih =>
    obtain ⟨n, col⟩ := p
    have hn : ¬(n = c) := by
      intro he
      exact h (by simp [names, he])
    have hrest : c ∉ names rest := by
      intro hm
      exact h (List.mem_cons_of_mem n hm)
    rw [List.map_cons, assignFn_miss ws col hn, ih hrest]

theorem setCol_setCol (t : Table) (c : String) (vs ws : List CellVal) :
    setCol (setCol t c vs) c ws = setCol t c ws := by
  by_cases h : c ∈ names t
  · have e1 : setCol t c vs = t.map (assignFn c vs) := by
      unfold setCol; rw [if_pos h]
    have e2 : setCol t c ws = t.map (assignFn c ws) := by
      unfold setCol; rw [if_pos h]
    have h2 : c ∈ names (t.map (assignFn c vs)) := by
      rw [names_map_assign]; exact h
    have e3 : setCol (t.map (assignFn c vs)) c ws =
        (t.map (assignFn c vs)).map (assignFn c ws) := by
      unfold setCol; rw [if_pos h2]
    rw [e1, e3, e2, List.map_map]
    apply List.map_congr_left
    intro p _
    by_cases hn : p.1 = c
    · simp [assignFn, hn, Function.comp]
    · simp [assignFn, hn, Function.comp]
  · have e1 : setCol t c vs = t ++ [(c, vs)] := by
      unfold setCol; rw [if_neg h]
    have h2 : c ∈ names (t ++ [(c, vs)]) := by
      rw [← e1]; exact mem_names_setCol_self t c vs
    have e3 : setCol (t ++ [(c, vs)]) c ws = (t ++ [(c, vs)]).map (assignFn c ws) := by
      unfold setCol; rw [if_pos h2]
    have hmap : t.map (assignFn c ws) = t := map_assign_of_not_mem ws h
    have e2 : setCol t c ws = t ++ [(c, ws)] := by
      unfold setCol; rw [if_neg h]
    rw [e1, e3, List.map_append, hmap, e2]
    simp [assignFn]

theorem nRows_setCol_mapSelf (t : Table) (c : String) (f : CellVal → CellVal) :
    nRows (setCol t c ((colD t c).map f)) = nRows t := by
  cases t with
  | nil => simp [setCol, names, nRows, colD, getCol]
  | cons p rest =>
    obtain ⟨n, col⟩ := p
    by_cases h : c ∈ names ((n, col) :: rest)
    · unfold setCol
      rw [if_pos h, List.map_cons]
      by_cases hn : n = c
      · subst hn
        simp [assignFn, nRows, colD, getCol]
      · simp [assignFn, hn, nRows]
    · unfold setCol
      rw [if_neg h]
      simp [nRows]

theorem nRows_setCol_of_not_mem {t : Table} {c : String} (vs : List CellVal)
    (h : c ∉ names t) (ht : t ≠ []) : nRows (setCol t c vs) = nRows t := by
  cases t with
  | nil => exact absurd rfl ht
  | cons p rest => simp [setCol, h, nRows]

theorem ne_nil_of_mem_names {t : Table} {c : String} (h : c ∈ names t) :
    t ≠ [] := by
  intro hnil
  subst hnil
  simp [names] at h

/- ### load_data structure lemmas -/

theorem names_convertCol (t : Table) (c : String) :
    names (convertCol t c) = names t := by
  unfold convertCol
  by_cases h : c ∈ names t
  · rw [if_pos h, names_setCol_of_mem _ h]
  · rw [if_neg h]

theorem nRows_convertCol (t : Table) (c : String) :
    nRows (convertCol t c) = nRows t := by
  unfold convertCol
  by_cases h : c ∈ names t
  · rw [if_pos h, nRows_setCol_mapSelf]
  · rw [if_neg h]

theorem getCol_convertCol_self {t : Table} {c : String} (h : c ∈ names t) :
    getCol (convertCol t c) c = some ((colD t c).map toDatetimeCell) := by
  unfold convertCol
  rw [if_pos h, getCol_setCol_self]

theorem getCol_convertCol_ne {c d : String} (t : Table) (h : d ≠ c) :
    getCol (convertCol t c) d = getCol t d := by
  unfold convertCol
  by_cases hm : c ∈ names t
  · rw [if_pos hm, getCol_setCol_ne _ _ h]
  · rw [if_neg hm]

theorem names_load_data (raw : Table) :
    names (load_data raw) = names raw ∨
    names (load_data raw) = names raw ++ ["trip_duration_minutes"] := by
  unfold load_data addDuration
  by_cases h : "tpep_pickup_datetime" ∈
        names (convertCol (convertCol raw "tpep_pickup_datetime") "tpep_dropoff_datetime") ∧
      "tpep_dropoff_datetime" ∈
        names (convertCol (convertCol raw "tpep_pickup_datetime") "tpep_dropoff_datetime")
  · rw [if_pos h]
    by_cases hd : "trip_duration_minutes" ∈
        names (convertCol (convertCol raw "tpep_pickup_datetime") "tpep_dropoff_datetime")
    · left
      rw [names_setCol_of_mem _ hd, names_convertCol, names_convertCol]
    · right
      rw [names_setCol_of_not_mem _ hd, names_convertCol, names_convertCol]
  · rw [if_neg h, names_convertCol, names_convertCol]
    left
    rfl

theorem mem_names_load_data {raw : Table} {c : String} (h : c ∈ names raw) :
    c ∈ names (load_data raw) := by
  rcases names_load_data raw with he | he <;> rw [he]
  · exact h
  · exact List.mem_append_left _ h

theorem not_mem_names_load_data {raw : Table} {c : String}
    (h1 : c ∉ names raw) (h2 : c ≠ "trip_duration_minutes") :
    c ∉ names (load_data raw) := by
  rcases names_load_data raw with he | he <;> rw [he]
  · exact h1
  · intro hmem
    rcases List.mem_append.mp hmem with ha | hb
    · exact h1 ha
    · exact h2 (by simpa using hb)

theorem nRows_load_data (raw : Table)
    (hnd : "trip_duration_minutes" ∉ names raw) :
    nRows (load_data raw) = nRows raw := by
  unfold load_data addDuration
  have hn2 : names (convertCol (convertCol raw "tpep_pickup_datetime") "tpep_dropoff_datetime") =
      names raw := by
    rw [names_convertCol, names_convertCol]
  have hr2 : nRows (convertCol (convertCol raw "tpep_pickup_datetime") "tpep_dropoff_datetime") =
      nRows raw := by
    rw [nRows_convertCol, nRows_convertCol]
  by_cases h : "tpep_pickup_datetime" ∈
        names (convertCol (convertCol raw "tpep_pickup_datetime") "tpep_dropoff_datetime") ∧
      "tpep_dropoff_datetime" ∈
        names (convertCol (convertCol raw "tpep_pickup_datetime") "tpep_dropoff_datetime")
  · rw [if_pos h, nRows_setCol_of_not_mem _ (hn2 ▸ hnd) (ne_nil_of_mem_names h.1), hr2]
  · rw [if_neg h, hr2]

theorem load_data_of_mem {raw : Table}
    (hp : "tpep_pickup_datetime" ∈ names raw)
    (hd : "tpep_dropoff_datetime" ∈ names raw) :
    load_data raw =
      setCol
        (setCol (setCol raw "tpep_pickup_datetime"
            ((colD raw "tpep_pickup_datetime").map toDatetimeCell))
          "tpep_dropoff_datetime" ((colD raw "tpep_dropoff_datetime").map toDatetimeCell))
        "trip_duration_minutes"
        (List.zipWith durationCell ((colD raw "tpep_pickup_datetime").map toDatetimeCell)
          ((colD raw "tpep_dropoff_datetime").map toDatetimeCell)) := by
  have hne : ("tpep_dropoff_datetime" : String) ≠ "tpep_pickup_datetime" := by decide
  have hc1 : convertCol raw "tpep_pickup_datetime" =
      setCol raw "tpep_pickup_datetime" ((colD raw "tpep_pickup_datetime").map toDatetimeCell) := by
    unfold convertCol
    rw [if_pos hp]
  have hd1 : "tpep_dropoff_datetime" ∈
      names (setCol raw "tpep_pickup_datetime"
        ((colD raw "tpep_pickup_datetime").map toDatetimeCell)) := by
    have := names_convertCol raw "tpep_pickup_datetime"
    rw [hc1] at this
    rw [this]
    exact hd
  have hcd : colD (setCol raw "tpep_pickup_datetime"
        ((colD raw "tpep_pickup_datetime").map toDatetimeCell)) "tpep_dropoff_datetime" =
      colD raw "tpep_dropoff_datetime" := by
    unfold colD
    rw [getCol_setCol_ne _ _ hne]
  have hc2 : convertCol (convertCol raw "tpep_pickup_datetime") "tpep_dropoff_datetime" =
      setCol (setCol raw "tpep_pickup_datetime"
          ((colD raw "tpep_pickup_datetime").map toDatetimeCell))
        "tpep_dropoff_datetime" ((colD raw "tpep_dropoff_datetime").map toDatetimeCell) := by
    rw [hc1]
    unfold convertCol
    rw [if_pos hd1, hcd]
  have hp2 : "tpep_pickup_datetime" ∈
      names (convertCol (convertCol raw "tpep_pickup_datetime") "tpep_dropoff_datetime") := by
    rw [names_convertCol, names_convertCol]; exact hp
  have hd2 : "tpep_dropoff_datetime" ∈
      names (convertCol (convertCol raw "tpep_pickup_datetime") "tpep_dropoff_datetime") := by
    rw [names_convertCol, names_convertCol]; exact hd
  have hgp : colD (convertCol (convertCol raw "tpep_pickup_datetime") "tpep_dropoff_datetime")
      "tpep_pickup_datetime" = (colD raw "tpep_pickup_datetime").map toDatetimeCell := by
    unfold colD
    rw [hc2, getCol_setCol_ne _ _ (fun hx => hne hx.symm), getCol_setCol_self]
    rfl
  have hgd : colD (convertCol (convertCol raw "tpep_pickup_datetime") "tpep_dropoff_datetime")
      "tpep_dropoff_datetime" = (colD raw "tpep_dropoff_datetime").map toDatetimeCell := by
    unfold colD
    rw [hc2, getCol_setCol_self]
    rfl
  unfold load_data addDuration
  rw [if_pos ⟨hp2, hd2⟩, hgp, hgd, hc2]

theorem load_data_of_not_mem {raw : Table}
    (h : "tpep_pickup_datetime" ∉ names raw ∨ "tpep_dropoff_datetime" ∉ names raw)
    (hnd : "trip_duration_minutes" ∉ names raw) :
    "trip_duration_minutes" ∉ names (load_data raw) := by
  unfold load_data addDuration
  have hn2 : names (convertCol (convertCol raw "tpep_pickup_datetime") "tpep_dropoff_datetime") =
      names raw := by
    rw [names_convertCol, names_convertCol]
  have hcond : ¬("tpep_pickup_datetime" ∈
        names (convertCol (convertCol raw "tpep_pickup_datetime") "tpep_dropoff_datetime") ∧
      "tpep_dropoff_datetime" ∈
        names (convertCol (convertCol raw "tpep_pickup_datetime") "tpep_dropoff_datetime")) := by
    intro hab
    rcases h with h | h
    · exact h (hn2 ▸ hab.1)
    · exact h (hn2 ▸ hab.2)
  rw [if_neg hcond, hn2]
  exact hnd

/- ### Cell-level lemmas -/

theorem sanitizeCell_is_num (v : CellVal) : ∃ q : Rat, sanitizeCell v = .num q := by
  cases v with
  | num q => exact ⟨q, rfl⟩
  | str s =>
    cases hq : parseNum s with
    | some q => exact ⟨q, by simp [sanitizeCell, hq]⟩
    | none => exact ⟨0, by simp [sanitizeCell, hq]⟩
  | dt a => exact ⟨((a.toMin : Int) : Rat), rfl⟩
  | null => exact ⟨0, rfl⟩

theorem sanitizeCell_idem (v : CellVal) :
    sanitizeCell (sanitizeCell v) = sanitizeCell v := by
  obtain ⟨q, hq⟩ := sanitizeCell_is_num v
  rw [hq]
  rfl

theorem sanitizeCell_null : sanitizeCell .null = .num 0 := rfl

theorem sanitizeCell_uncoercible {s : String} (h : parseNum s = none) :
    sanitizeCell (.str s) = .num 0 := by
  simp [sanitizeCell, h]

theorem sanitize_map_idem (col : List CellVal) :
    (col.map sanitizeCell).map sanitizeCell = col.map sanitizeCell := by
  rw [List.map_map]
  apply List.map_congr_left
  intro v _
  exact sanitizeCell_idem v

theorem sanitize_map_of_numeric {col : List CellVal}
    (h : ∀ v ∈ col, ∃ q : Rat, v = .num q) : col.map sanitizeCell = col := by
  induction col with
  | nil => rfl
  | cons v vs ih =>
    obtain ⟨q, hq⟩ := h v (List.mem_cons_self v vs)
    rw [List.map_cons, ih (fun w hw => h w (List.mem_cons_of_mem v hw)), hq]
    rfl

/- ### groupKeys lemmas -/

theorem mem_groupKeys {l : List CellVal} {k : CellVal} :
    k ∈ groupKeys l ↔ k ≠ CellVal.null ∧ k ∈ l := by
  unfold groupKeys
  rw [List.mem_dedup, List.mem_filter]
  constructor
  · intro ⟨h1, h2⟩
    exact ⟨by simpa using h2, h1⟩
  · intro ⟨h1, h2⟩
    exact ⟨h2, by simpa using h1⟩

theorem nodup_groupKeys (l : List CellVal) : (groupKeys l).Nodup :=
  List.nodup_dedup _

/-- Every hour value derived from a timestamp column is one of the 24
cells num 0, ..., num 23. -/
theorem groupKeys_hours_subset (pc : List CellVal) :
    groupKeys (pc.map hourCell) ⊆
      (List.range 24).map (fun n => CellVal.num (n : Rat)) := by
  intro k hk
  obtain ⟨hne, hmem⟩ := mem_groupKeys.mp hk
  obtain ⟨v, _, hv⟩ := List.mem_map.mp hmem
  cases v with
  | dt a =>
    rw [← hv]
    simp only [hourCell, List.mem_map, List.mem_range]
    exact ⟨((a.hour.val : Nat) : Rat),
      List.mem_map.mpr ⟨a.hour.val, List.mem_range.mpr a.hour.isLt, rfl⟩,
      by norm_cast⟩
  | num q => exact absurd hv.symm (by simpa [hourCell] using hne)
  | str s => exact absurd hv.symm (by simpa [hourCell] using hne)
  | null => exact absurd hv.symm (by simpa [hourCell] using hne)

theorem groupKeys_hours_length_le (pc : List CellVal) :
    (groupKeys (pc.map hourCell)).length ≤ 24 := by
  have hsub := List.subperm_of_subset (nodup_groupKeys _) (groupKeys_hours_subset pc)
  have := hsub.length_le
  simpa using this

/- ### PFloat lemmas -/

theorem ratDiv_of_ne_zero {b : Rat} (a : Rat) (h : b ≠ 0) :
    ratDiv a b = .fin (a / b) := by
  unfold ratDiv
  rw [if_neg h]

theorem ratDiv_zero_nonfinite (a : Rat) :
    ratDiv a 0 = .nan ∨ ratDiv a 0 = .inf ∨ ratDiv a 0 = .neginf := by
  unfold ratDiv
  by_cases h0 : a = 0
  · simp [h0]
  · by_cases hpos : 0 < a
    · simp [h0, hpos]
    · simp [h0, hpos]

theorem pmul100_nonfinite {x : PFloat}
    (h : x = .nan ∨ x = .inf ∨ x = .neginf) :
    pmul100 x = .nan ∨ pmul100 x = .inf ∨ pmul100 x = .neginf := by
  rcases h with h | h | h <;> subst h <;> simp [pmul100]

/- ### Share-percentage sum lemma -/

theorem map_div_mul_sum (l : List Rat) (T : Rat) :
    (l.map (fun s => (s / T) * 100)).sum = (l.sum / T) * 100 := by
  induction l with
  | nil => simp
  | cons a l ih =>
    rw [List.map_cons, List.sum_cons, List.sum_cons, ih]
    ring

/- ### Concrete example tables used in witnesses and counterexamples -/

instance instDecEqExcept {ε α : Type} [DecidableEq ε] [DecidableEq α] :
    DecidableEq (Except ε α) := fun a b =>
  match a, b with
  | .ok x, .ok y => if h : x = y then isTrue (by rw [h]) else isFalse (by simp [h])
  | .error x, .error y => if h : x = y then isTrue (by rw [h]) else isFalse (by simp [h])
  | .ok _, .error _ => isFalse (by simp)
  | .error _, .ok _ => isFalse (by simp)

/-- Two trips, both in hour 8, as parsed from CSV text. -/
def exOneHour : Table :=
  [("tpep_pickup_datetime", [CellVal.str "2024-01-01 08:00", CellVal.str "2024-01-01 08:30"]),
   ("total_amount", [CellVal.num 10, CellVal.num 5]),
   ("tip_amount", [CellVal.num 0, CellVal.num 0])]

/-- One zone whose only trip has a total of 0: grand total is 0. -/
def exZeroTotal : Table :=
  [("PULocationID", [CellVal.num 1]), ("total_amount", [CellVal.num 0])]

/-- Two zones whose totals cancel to a grand total of 0. -/
def exCancelTotal : Table :=
  [("PULocationID", [CellVal.num 1, CellVal.num 2]),
   ("total_amount", [CellVal.num 5, CellVal.num (-5)])]

/-- Two zones with a nonzero grand total (one null cell skipped by sum). -/
def exShares : Table :=
  [("PULocationID", [CellVal.num 1, CellVal.num 2, CellVal.num 1]),
   ("total_amount", [CellVal.num 10, CellVal.num 30, CellVal.null])]

/-- A table with pickup zones but no total_amount column. -/
def exNoValueCol : Table :=
  [("PULocationID", [CellVal.num 1]),
   ("tpep_pickup_datetime", [CellVal.str "2024-01-01 08:00"])]

section
attribute [local semireducible] Rat.add Rat.mul Rat.sub Rat.inv

/- ### C7 -/

/-- C7: when the uploaded byte length exceeds the 100 KiB cap, the upload
flow rejects with the size error and never reaches load_data, so no
TripTable is constructed. -/
theorem upload_size_cap (fileSize : Nat) (raw : Table)
    (h : fileSize > 100 * 1024) : handleUpload fileSize raw = .sizeError := by
  unfold handleUpload
  rw [if_pos h]

/-- C7 witness: a 102401-byte upload is rejected. -/
theorem upload_size_cap_witness :
    102401 > 100 * 1024 ∧ handleUpload 102401 [] = .sizeError :=
  ⟨by decide, upload_size_cap 102401 [] (by decide)⟩

/- ### C2 -/

/-- C2 counterexample: with a grand total of 0 the code does not return a
share of 0 — the single zone's share is the undefined value NaN (0/0). -/
theorem zero_total_share_nan_cex :
    revenue_share_by_pickup_zones exZeroTotal =
      .ok [(CellVal.num 1, (0 : Rat), PFloat.nan)] ∧
    PFloat.nan ≠ PFloat.fin 0 := by
  constructor
  · decide
  · decide

/-- C2 (amended): a zero grand total raises no division error — the
operation still returns a result row per zone — but each share is a
non-finite float (NaN for zero group sums, a signed infinity otherwise),
not 0. -/
theorem zero_total_shares_nonfinite (t : Table)
    (hPU : "PULocationID" ∈ names t) (vcol : List CellVal)
    (hTA : getCol t "total_amount" = some vcol)
    (h0 : revenueTotal t = 0) :
    ∃ rows, revenue_share_by_pickup_zones t = .ok rows ∧
      ∀ r ∈ rows,
        r.2.2 = PFloat.nan ∨ r.2.2 = PFloat.inf ∨ r.2.2 = PFloat.neginf := by
  unfold revenue_share_by_pickup_zones
  rw [if_pos hPU, hTA]
  refine ⟨_, rfl, ?_⟩
  intro r hr
  obtain ⟨k, _, hkr⟩ := List.mem_map.mp hr
  rw [← hkr]
  dsimp only
  rw [h0]
  exact pmul100_nonfinite (ratDiv_zero_nonfinite _)

/-- C2 witness: two zones whose totals cancel; shares are the two signed
infinities, not zero, and no error is raised. -/
theorem zero_total_shares_nonfinite_witness :
    ("PULocationID" ∈ names exCancelTotal) ∧
    getCol exCancelTotal "total_amount" = some [CellVal.num 5, CellVal.num (-5)] ∧
    revenueTotal exCancelTotal = 0 ∧
    (∃ rows, revenue_share_by_pickup_zones exCancelTotal = .ok rows ∧
      ∀ r ∈ rows,
        r.2.2 = PFloat.nan ∨ r.2.2 = PFloat.inf ∨ r.2.2 = PFloat.neginf) :=
  ⟨by decide, by decide, by decide,
    zero_total_shares_nonfinite exCancelTotal (by decide)
      [CellVal.num 5, CellVal.num (-5)] (by decide) (by decide)⟩

/- ### C6 -/

/-- C6: whenever the grand total is nonzero, every zone's share is the
finite value 100 * groupSum / totalSum and the shares sum to exactly 100
in exact arithmetic. -/
theorem revenue_shares_sum_100 (t : Table)
    (hPU : "PULocationID" ∈ names t) (vcol : List CellVal)
    (hTA : getCol t "total_amount" = some vcol)
    (hT : revenueTotal t ≠ 0) :
    ∃ rows : List (CellVal × Rat × PFloat),
      revenue_share_by_pickup_zones t = .ok rows ∧
      ∃ qs : List Rat, rows.map (fun r => r.2.2) = qs.map PFloat.fin ∧
        qs.sum = 100 := by
  have hv : colD t "total_amount" = vcol := by
    unfold colD
    rw [hTA]
    rfl
  unfold revenue_share_by_pickup_zones
  rw [if_pos hPU, hTA]
  refine ⟨_, rfl, ?_⟩
  refine ⟨((groupKeys (colD t "PULocationID")).map
      (fun k => groupSum (colD t "PULocationID") vcol k)).map
      (fun s => (s / revenueTotal t) * 100), ?_, ?_⟩
  · rw [List.map_map, List.map_map, List.map_map]
    apply List.map_congr_left
    intro k _
    dsimp only [Function.comp]
    rw [ratDiv_of_ne_zero _ hT]
    rfl
  · rw [map_div_mul_sum]
    have hsum : ((groupKeys (colD t "PULocationID")).map
        (fun k => groupSum (colD t "PULocationID") vcol k)).sum = revenueTotal t := by
      unfold revenueTotal
      rw [hv]
    rw [hsum, div_self hT, one_mul]

/-- C6 witness: zones 1 and 2 with sums 10 and 30; shares 25 and 75 sum
to 100. -/
theorem revenue_shares_sum_100_witness :
    ("PULocationID" ∈ names exShares) ∧
    getCol exShares "total_amount" =
      some [CellVal.num 10, CellVal.num 30, CellVal.null] ∧
    revenueTotal exShares ≠ 0 ∧
    (∃ rows : List (CellVal × Rat × PFloat),
      revenue_share_by_pickup_zones exShares = .ok rows ∧
      ∃ qs : List Rat, rows.map (fun r => r.2.2) = qs.map PFloat.fin ∧
        qs.sum = 100) :=
  ⟨by decide, by decide, by decide,
    revenue_shares_sum_100 exShares (by decide)
      [CellVal.num 10, CellVal.num 30, CellVal.null] (by decide) (by decide)⟩

/- ### C3 -/

/-- C3 counterexample: revenue share by pickup zones with the zone column
present but total_amount absent does not fail with the reported
column-not-found message; the unguarded groupby lookup raises an
uncaught KeyError. -/
theorem missing_value_column_cex :
    revenue_share_by_pickup_zones [("PULocationID", [CellVal.num 1])] =
      .error .keyError ∧
    RunError.keyError ≠ RunError.columnNotFound := by
  constructor
  · rfl
  · decide

/-- C3 (amended): only the group-by / timestamp column of each
aggregation is guarded by a reported ColumnNotFound condition; a missing
value column (total_amount, tip_amount) instead escapes as an uncaught
KeyError. -/
theorem value_columns_unguarded (t u : Table)
    (h1 : "PULocationID" ∉ names t)
    (h2 : "tpep_pickup_datetime" ∉ names t)
    (h3 : "PULocationID" ∈ names u)
    (h4 : "tpep_pickup_datetime" ∈ names u)
    (h5 : "total_amount" ∉ names u) :
    revenue_share_by_pickup_zones t = .error .columnNotFound ∧
    (hourly_total_and_tips t).2 = .error .columnNotFound ∧
    revenue_share_by_pickup_zones u = .error .keyError ∧
    (hourly_total_and_tips u).2 = .error .keyError := by
  refine ⟨?_, ?_, ?_, ?_⟩
  · unfold revenue_share_by_pickup_zones
    rw [if_neg h1]
  · unfold hourly_total_and_tips
    rw [if_neg h2]
  · unfold revenue_share_by_pickup_zones
    rw [if_pos h3, (getCol_eq_none_iff u "total_amount").mpr h5]
  · unfold hourly_total_and_tips
    rw [if_pos h4]
    have hta : getCol (setCol u "hour" ((colD u "tpep_pickup_datetime").map hourCell))
        "total_amount" = none := by
      rw [getCol_setCol_ne _ _ (by decide : ("total_amount" : String) ≠ "hour")]
      exact (getCol_eq_none_iff u "total_amount").mpr h5
    simp only [hta]

/-- C3 witness: the empty table triggers both reported errors; a table
with the zone and timestamp columns but no totals triggers both uncaught
KeyError faults. -/
theorem value_columns_unguarded_witness :
    ("PULocationID" ∉ names ([] : Table)) ∧
    ("tpep_pickup_datetime" ∉ names ([] : Table)) ∧
    ("PULocationID" ∈ names exNoValueCol) ∧
    ("tpep_pickup_datetime" ∈ names exNoValueCol) ∧
    ("total_amount" ∉ names exNoValueCol) ∧
    (revenue_share_by_pickup_zones [] = .error .columnNotFound ∧
     (hourly_total_and_tips []).2 = .error .columnNotFound ∧
     revenue_share_by_pickup_zones exNoValueCol = .error .keyError ∧
     (hourly_total_and_tips exNoValueCol).2 = .error .keyError) :=
  ⟨by decide, by decide, by decide, by decide, by decide,
    value_columns_unguarded [] exNoValueCol (by decide) (by decide) (by decide)
      (by decide) (by decide)⟩

/- ### C4 -/

/-- C4 counterexample: the distribution query is not read-only — on a
column holding a non-numeric string it overwrites the column with the
sanitized (zeroed) values, so the table afterwards differs from the
table before. -/
theorem plot_distribution_mutates_cex :
    (plot_distribution [("passenger_count", [CellVal.str "x"])] "passenger_count").1 ≠
      [("passenger_count", [CellVal.str "x"])] := by
  decide

/-- C4 (amended): the failing (column-not-found) path leaves the table
unchanged, and repeating the same distribution query is idempotent — the
second run returns the same payload and mutates nothing further — but a
successful run does overwrite the requested column with its sanitized
values. -/
theorem plot_distribution_frame (t : Table) (c : String) :
    (getCol t c = none → (plot_distribution t c).1 = t) ∧
    plot_distribution (plot_distribution t c).1 c = plot_distribution t c := by
  constructor
  · intro h
    unfold plot_distribution
    rw [h]
  · cases hg : getCol t c with
    | none =>
      have e : plot_distribution t c = (t, .error .columnNotFound) := by
        unfold plot_distribution
        rw [hg]
      rw [e]
      show plot_distribution t c = (t, .error .columnNotFound)
      exact e
    | some col =>
      have e : plot_distribution t c =
          (setCol t c (col.map sanitizeCell), .ok (col.map sanitizeCell)) := by
        unfold plot_distribution
        rw [hg]
      have hg2 : getCol (setCol t c (col.map sanitizeCell)) c =
          some (col.map sanitizeCell) := getCol_setCol_self t c _
      have e2 : plot_distribution (setCol t c (col.map sanitizeCell)) c =
          (setCol (setCol t c (col.map sanitizeCell)) c
              ((col.map sanitizeCell).map sanitizeCell),
            .ok ((col.map sanitizeCell).map sanitizeCell)) := by
        unfold plot_distribution
        rw [hg2]
      rw [e]
      show plot_distribution (setCol t c (col.map sanitizeCell)) c = _
      rw [e2, sanitize_map_idem, setCol_setCol]

/-- C4 witness: on a table without column b the failing query leaves the
table intact and repeating it changes nothing. -/
theorem plot_distribution_frame_witness :
    getCol [("a", [CellVal.null])] "b" = none ∧
    (plot_distribution [("a", [CellVal.null])] "b").1 = [("a", [CellVal.null])] ∧
    plot_distribution (plot_distribution [("a", [CellVal.null])] "b").1 "b" =
      plot_distribution [("a", [CellVal.null])] "b" :=
  ⟨by decide,
    (plot_distribution_frame [("a", [CellVal.null])] "b").1 (by decide),
    (plot_distribution_frame [("a", [CellVal.null])] "b").2⟩

/- ### C5 -/

/-- C5: the column sanitizer embedded in plot_distribution returns, for
any present column, a sequence of numeric cells of the table's row
count, substituting 0 for null and for non-coercible strings; it is
idempotent, and it is the identity on an already-numeric column. -/
theorem sanitizer_contract (t : Table) (c : String) (col : List CellVal)
    (hW : WF t) (hg : getCol t c = some col) :
    (plot_distribution t c).2 = .ok (col.map sanitizeCell) ∧
    (col.map sanitizeCell).length = nRows t ∧
    (∀ v ∈ col.map sanitizeCell, ∃ q : Rat, v = .num q) ∧
    (∀ i : Nat, col[i]? = some CellVal.null →
      (col.map sanitizeCell)[i]? = some (.num 0)) ∧
    (∀ i : Nat, ∀ s : String, col[i]? = some (.str s) → parseNum s = none →
      (col.map sanitizeCell)[i]? = some (.num 0)) ∧
    (col.map sanitizeCell).map sanitizeCell = col.map sanitizeCell ∧
    ((∀ v ∈ col, ∃ q : Rat, v = .num q) → col.map sanitizeCell = col) := by
  refine ⟨?_, ?_, ?_, ?_, ?_, sanitize_map_idem col, sanitize_map_of_numeric⟩
  · unfold plot_distribution
    rw [hg]
  · rw [List.length_map]
    exact hW _ (getCol_mem hg)
  · intro v hv
    obtain ⟨w, _, hw⟩ := List.mem_map.mp hv
    rw [← hw]
    exact sanitizeCell_is_num w
  · intro i hi
    rw [List.getElem?_map, hi]
    rfl
  · intro i s hi hp
    rw [List.getElem?_map, hi]
    simp [sanitizeCell_uncoercible hp]

/-- C5 witness: a fare column with a numeric cell, a null, a coercible
string and a junk string satisfies the whole sanitizer contract. -/
theorem sanitizer_contract_witness :
    WF [("fare_amount", [CellVal.num 1, CellVal.null, CellVal.str "2.5", CellVal.str "abc"])] ∧
    getCol [("fare_amount", [CellVal.num 1, CellVal.null, CellVal.str "2.5", CellVal.str "abc"])]
        "fare_amount" =
      some [CellVal.num 1, CellVal.null, CellVal.str "2.5", CellVal.str "abc"] ∧
    ((plot_distribution
          [("fare_amount", [CellVal.num 1, CellVal.null, CellVal.str "2.5", CellVal.str "abc"])]
          "fare_amount").2 =
        .ok ([CellVal.num 1, CellVal.null, CellVal.str "2.5", CellVal.str "abc"].map sanitizeCell) ∧
      ([CellVal.num 1, CellVal.null, CellVal.str "2.5", CellVal.str "abc"].map sanitizeCell).length =
        nRows [("fare_amount", [CellVal.num 1, CellVal.null, CellVal.str "2.5", CellVal.str "abc"])] ∧
      (∀ v ∈ [CellVal.num 1, CellVal.null, CellVal.str "2.5", CellVal.str "abc"].map sanitizeCell,
        ∃ q : Rat, v = .num q) ∧
      (∀ i : Nat,
        [CellVal.num 1, CellVal.null, CellVal.str "2.5", CellVal.str "abc"][i]? =
            some CellVal.null →
          ([CellVal.num 1, CellVal.null, CellVal.str "2.5", CellVal.str "abc"].map
              sanitizeCell)[i]? = some (.num 0)) ∧
      (∀ i : Nat, ∀ s : String,
        [CellVal.num 1, CellVal.null, CellVal.str "2.5", CellVal.str "abc"][i]? =
            some (.str s) → parseNum s = none →
          ([CellVal.num 1, CellVal.null, CellVal.str "2.5", CellVal.str "abc"].map
              sanitizeCell)[i]? = some (.num 0)) ∧
      ([CellVal.num 1, CellVal.null, CellVal.str "2.5", CellVal.str "abc"].map sanitizeCell).map
          sanitizeCell =
        [CellVal.num 1, CellVal.null, CellVal.str "2.5", CellVal.str "abc"].map sanitizeCell ∧
      ((∀ v ∈ [CellVal.num 1, CellVal.null, CellVal.str "2.5", CellVal.str "abc"],
          ∃ q : Rat, v = .num q) →
        [CellVal.num 1, CellVal.null, CellVal.str "2.5", CellVal.str "abc"].map sanitizeCell =
          [CellVal.num 1, CellVal.null, CellVal.str "2.5", CellVal.str "abc"])) :=
  ⟨by decide, by decide,
    sanitizer_contract
      [("fare_amount", [CellVal.num 1, CellVal.null, CellVal.str "2.5", CellVal.str "abc"])]
      "fare_amount"
      [CellVal.num 1, CellVal.null, CellVal.str "2.5", CellVal.str "abc"]
      (by decide) (by decide)⟩

/- ### C9 -/

/-- C9: the traffic heatmap depends on the hour column existing, which
load_data never creates; on a freshly loaded table it reports the
not-found error, while after running busiest_hours (which assigns the
hour column as a side effect) on the same table it succeeds. -/
theorem traffic_heatmap_needs_prior_hour (raw : Table)
    (h1 : "hour" ∉ names raw) (hp : "tpep_pickup_datetime" ∈ names raw) :
    traffic_heatmap (load_data raw) = .error .columnNotFound ∧
    (∃ counts, (busiest_hours (load_data raw)).2 = .ok counts) ∧
    (∃ grid, traffic_heatmap (busiest_hours (load_data raw)).1 = .ok grid) := by
  have hload : "hour" ∉ names (load_data raw) :=
    not_mem_names_load_data h1 (by decide)
  have hpl : "tpep_pickup_datetime" ∈ names (load_data raw) :=
    mem_names_load_data hp
  refine ⟨?_, ?_, ?_⟩
  · unfold traffic_heatmap
    rw [if_neg hload]
  · unfold busiest_hours
    rw [if_pos hpl]
    exact ⟨_, rfl⟩
  · have hb1 : (busiest_hours (load_data raw)).1 =
        setCol (load_data raw) "hour"
          ((colD (load_data raw) "tpep_pickup_datetime").map hourCell) := by
      unfold busiest_hours
      rw [if_pos hpl]
    rw [hb1]
    unfold traffic_heatmap
    have hh : "hour" ∈ names (setCol (load_data raw) "hour"
        ((colD (load_data raw) "tpep_pickup_datetime").map hourCell)) :=
      mem_names_setCol_self _ _ _
    rw [if_pos hh]
    obtain ⟨pc, hpc⟩ := getCol_isSome_of_mem hpl
    have hpc2 : getCol (setCol (load_data raw) "hour"
        ((colD (load_data raw) "tpep_pickup_datetime").map hourCell))
        "tpep_pickup_datetime" = some pc := by
      rw [getCol_setCol_ne _ _ (by decide : ("tpep_pickup_datetime" : String) ≠ "hour")]
      exact hpc
    rw [hpc2]
    exact ⟨_, rfl⟩

/-- C9 witness: a one-trip CSV with a valid pickup timestamp. -/
theorem traffic_heatmap_needs_prior_hour_witness :
    ("hour" ∉ names [("tpep_pickup_datetime", [CellVal.str "2024-01-01 08:00"])]) ∧
    ("tpep_pickup_datetime" ∈
      names [("tpep_pickup_datetime", [CellVal.str "2024-01-01 08:00"])]) ∧
    (traffic_heatmap (load_data [("tpep_pickup_datetime", [CellVal.str "2024-01-01 08:00"])]) =
        .error .columnNotFound ∧
      (∃ counts, (busiest_hours
          (load_data [("tpep_pickup_datetime", [CellVal.str "2024-01-01 08:00"])])).2 =
        .ok counts) ∧
      (∃ grid, traffic_heatmap (busiest_hours
          (load_data [("tpep_pickup_datetime", [CellVal.str "2024-01-01 08:00"])])).1 =
        .ok grid)) :=
  ⟨by decide, by decide,
    traffic_heatmap_needs_prior_hour
      [("tpep_pickup_datetime", [CellVal.str "2024-01-01 08:00"])]
      (by decide) (by decide)⟩

/- ### C1 -/

/-- C1 counterexample: a loaded table whose two trips both start in hour
8 yields a single result row (hour 8, sums 15 and 0), not a dense table
of 24 rows with zeros. -/
theorem hourly_not_dense_cex :
    (hourly_total_and_tips (load_data exOneHour)).2 =
      .ok [(CellVal.num 8, (15 : Rat), (0 : Rat))] ∧
    [(CellVal.num 8, (15 : Rat), (0 : Rat))].length = 1 := by
  constructor
  · decide
  · rfl

/-- C1 (amended): hourly_total_and_tips derives hour = pickup.hour per
row, drops rows with a null pickup, and returns exactly one row per
distinct hour actually present — at most 24, with hours that have no
rows omitted rather than reported with a 0 sum — each row carrying the
per-hour sums of total_amount and tip_amount. -/
theorem hourly_rows_are_present_hours (t : Table)
    (hp : "tpep_pickup_datetime" ∈ names t)
    (hta : "total_amount" ∈ names t) (hti : "tip_amount" ∈ names t) :
    ∃ rows : List (CellVal × Rat × Rat),
      (hourly_total_and_tips t).2 = .ok rows ∧
      (∀ k : CellVal, k ∈ rows.map Prod.fst ↔
        (k ≠ CellVal.null ∧ k ∈ (colD t "tpep_pickup_datetime").map hourCell)) ∧
      (rows.map Prod.fst).Nodup ∧
      (∀ r ∈ rows,
        r.2.1 = groupSum ((colD t "tpep_pickup_datetime").map hourCell)
          (colD t "total_amount") r.1 ∧
        r.2.2 = groupSum ((colD t "tpep_pickup_datetime").map hourCell)
          (colD t "tip_amount") r.1) ∧
      rows.length ≤ 24 := by
  obtain ⟨tot, htot⟩ := getCol_isSome_of_mem hta
  obtain ⟨tip, htip⟩ := getCol_isSome_of_mem hti
  have hcvt : colD t "total_amount" = tot := by
    unfold colD
    rw [htot]
    rfl
  have hcvi : colD t "tip_amount" = tip := by
    unfold colD
    rw [htip]
    rfl
  have htot2 : getCol (setCol t "hour" ((colD t "tpep_pickup_datetime").map hourCell))
      "total_amount" = some tot := by
    rw [getCol_setCol_ne _ _ (by decide : ("total_amount" : String) ≠ "hour")]
    exact htot
  have htip2 : getCol (setCol t "hour" ((colD t "tpep_pickup_datetime").map hourCell))
      "tip_amount" = some tip := by
    rw [getCol_setCol_ne _ _ (by decide : ("tip_amount" : String) ≠ "hour")]
    exact htip
  have e : (hourly_total_and_tips t).2 =
      .ok ((groupKeys ((colD t "tpep_pickup_datetime").map hourCell)).map
        (fun k => (k, groupSum ((colD t "tpep_pickup_datetime").map hourCell) tot k,
          groupSum ((colD t "tpep_pickup_datetime").map hourCell) tip k))) := by
    unfold hourly_total_and_tips
    rw [if_pos hp]
    simp only [htot2, htip2]
  refine ⟨_, e, ?_, ?_, ?_, ?_⟩
  all_goals
    have hmapfst : ((groupKeys ((colD t "tpep_pickup_datetime").map hourCell)).map
        (fun k => (k, groupSum ((colD t "tpep_pickup_datetime").map hourCell) tot k,
          groupSum ((colD t "tpep_pickup_datetime").map hourCell) tip k))).map Prod.fst =
        groupKeys ((colD t "tpep_pickup_datetime").map hourCell) := by
      rw [List.map_map]
      exact List.map_id _
  · intro k
    rw [hmapfst]
    exact mem_groupKeys
  · rw [hmapfst]
    exact nodup_groupKeys _
  · intro r hr
    obtain ⟨k, _, hkr⟩ := List.mem_map.mp hr
    rw [← hkr, hcvt, hcvi]
    exact ⟨rfl, rfl⟩
  · rw [List.length_map]
    exact groupKeys_hours_length_le _

/-- C1 witness: the one-hour table satisfies the amended claim. -/
theorem hourly_rows_are_present_hours_witness :
    ("tpep_pickup_datetime" ∈ names (load_data exOneHour)) ∧
    ("total_amount" ∈ names (load_data exOneHour)) ∧
    ("tip_amount" ∈ names (load_data exOneHour)) ∧
    (∃ rows : List (CellVal × Rat × Rat),
      (hourly_total_and_tips (load_data exOneHour)).2 = .ok rows ∧
      (∀ k : CellVal, k ∈ rows.map Prod.fst ↔
        (k ≠ CellVal.null ∧
          k ∈ (colD (load_data exOneHour) "tpep_pickup_datetime").map hourCell)) ∧
      (rows.map Prod.fst).Nodup ∧
      (∀ r ∈ rows,
        r.2.1 = groupSum ((colD (load_data exOneHour) "tpep_pickup_datetime").map hourCell)
          (colD (load_data exOneHour) "total_amount") r.1 ∧
        r.2.2 = groupSum ((colD (load_data exOneHour) "tpep_pickup_datetime").map hourCell)
          (colD (load_data exOneHour) "tip_amount") r.1) ∧
      rows.length ≤ 24) :=
  ⟨by decide, by decide, by decide,
    hourly_rows_are_present_hours (load_data exOneHour)
      (by decide) (by decide) (by decide)⟩

/- ### C8 -/

/-- C8: during loading each present timestamp column is parsed cell-wise
(unparsable strings become null and the rows are kept, so the row count
is unchanged); when both columns are present, trip_duration_minutes is
the per-row dropoff minus pickup in minutes, null whenever either side
is null; when either column is absent the derived column is omitted. -/
theorem load_data_timestamp_handling (raw raw2 : Table)
    (hp : "tpep_pickup_datetime" ∈ names raw)
    (hd : "tpep_dropoff_datetime" ∈ names raw)
    (hnd : "trip_duration_minutes" ∉ names raw)
    (habs : "tpep_pickup_datetime" ∉ names raw2 ∨ "tpep_dropoff_datetime" ∉ names raw2)
    (hnd2 : "trip_duration_minutes" ∉ names raw2) :
    getCol (load_data raw) "tpep_pickup_datetime" =
      some ((colD raw "tpep_pickup_datetime").map toDatetimeCell) ∧
    getCol (load_data raw) "tpep_dropoff_datetime" =
      some ((colD raw "tpep_dropoff_datetime").map toDatetimeCell) ∧
    getCol (load_data raw) "trip_duration_minutes" =
      some (List.zipWith durationCell
        ((colD raw "tpep_pickup_datetime").map toDatetimeCell)
        ((colD raw "tpep_dropoff_datetime").map toDatetimeCell)) ∧
    (∀ s : String, parseDatetime s = none → toDatetimeCell (.str s) = .null) ∧
    (∀ p d : CellVal, (p = CellVal.null ∨ d = CellVal.null) →
      durationCell p d = CellVal.null) ∧
    (∀ a b : DateTime, durationCell (.dt a) (.dt b) =
      .num ((b.toMin - a.toMin : Int) : Rat)) ∧
    nRows (load_data raw) = nRows raw ∧
    "trip_duration_minutes" ∉ names (load_data raw2) := by
  have e := load_data_of_mem hp hd
  have hne1 : ("tpep_pickup_datetime" : String) ≠ "trip_duration_minutes" := by decide
  have hne2 : ("tpep_dropoff_datetime" : String) ≠ "trip_duration_minutes" := by decide
  have hne3 : ("tpep_pickup_datetime" : String) ≠ "tpep_dropoff_datetime" := by decide
  refine ⟨?_, ?_, ?_, ?_, ?_, fun a b => rfl, nRows_load_data raw hnd,
    load_data_of_not_mem habs hnd2⟩
  · rw [e, getCol_setCol_ne _ _ hne1, getCol_setCol_ne _ _ hne3, getCol_setCol_self]
  · rw [e, getCol_setCol_ne _ _ hne2, getCol_setCol_self]
  · rw [e, getCol_setCol_self]
  · intro s hs
    simp [toDatetimeCell, hs]
  · intro p d h
    rcases h with h | h
    · subst h
      cases d <;> rfl
    · subst h
      cases p <;> rfl

/-- C8 witness: a two-row table with one parsable pair and one row whose
pickup is junk and whose dropoff is missing; and a table with only a
pickup column, which gets no duration column. -/
theorem load_data_timestamp_handling_witness :
    ("tpep_pickup_datetime" ∈ names
      [("tpep_pickup_datetime", [CellVal.str "2024-01-01 08:00", CellVal.str "bogus"]),
       ("tpep_dropoff_datetime", [CellVal.str "2024-01-01 08:15", CellVal.null])]) ∧
    ("tpep_dropoff_datetime" ∈ names
      [("tpep_pickup_datetime", [CellVal.str "2024-01-01 08:00", CellVal.str "bogus"]),
       ("tpep_dropoff_datetime", [CellVal.str "2024-01-01 08:15", CellVal.null])]) ∧
    ("trip_duration_minutes" ∉ names
      [("tpep_pickup_datetime", [CellVal.str "2024-01-01 08:00", CellVal.str "bogus"]),
       ("tpep_dropoff_datetime", [CellVal.str "2024-01-01 08:15", CellVal.null])]) ∧
    ("tpep_dropoff_datetime" ∉ names
      [("tpep_pickup_datetime", [CellVal.str "2024-01-01 08:00"])]) ∧
    ("trip_duration_minutes" ∉ names
      [("tpep_pickup_datetime", [CellVal.str "2024-01-01 08:00"])]) ∧
    (getCol (load_data
        [("tpep_pickup_datetime", [CellVal.str "2024-01-01 08:00", CellVal.str "bogus"]),
         ("tpep_dropoff_datetime", [CellVal.str "2024-01-01 08:15", CellVal.null])])
        "trip_duration_minutes" =
      some (List.zipWith durationCell
        ((colD [("tpep_pickup_datetime", [CellVal.str "2024-01-01 08:00", CellVal.str "bogus"]),
           ("tpep_dropoff_datetime", [CellVal.str "2024-01-01 08:15", CellVal.null])]
           "tpep_pickup_datetime").map toDatetimeCell)
        ((colD [("tpep_pickup_datetime", [CellVal.str "2024-01-01 08:00", CellVal.str "bogus"]),
           ("tpep_dropoff_datetime", [CellVal.str "2024-01-01 08:15", CellVal.null])]
           "tpep_dropoff_datetime").map toDatetimeCell))) ∧
    ("trip_duration_minutes" ∉ names (load_data
      [("tpep_pickup_datetime", [CellVal.str "2024-01-01 08:00"])])) :=
  ⟨by decide, by decide, by decide, by decide, by decide,
    (load_data_timestamp_handling
      [("tpep_pickup_datetime", [CellVal.str "2024-01-01 08:00", CellVal.str "bogus"]),
       ("tpep_dropoff_datetime", [CellVal.str "2024-01-01 08:15", CellVal.null])]
      [("tpep_pickup_datetime", [CellVal.str "2024-01-01 08:00"])]
      (by decide) (by decide) (by decide) (Or.inr (by decide)) (by decide)).2.2.1,
    (load_data_timestamp_handling
      [("tpep_pickup_datetime", [CellVal.str "2024-01-01 08:00", CellVal.str "bogus"]),
       ("tpep_dropoff_datetime", [CellVal.str "2024-01-01 08:15", CellVal.null])]
      [("tpep_pickup_datetime", [CellVal.str "2024-01-01 08:00"])]
      (by decide) (by decide) (by decide) (Or.inr (by decide)) (by decide)).2.2.2.2.2.2.2⟩

/- ### C10 -/

/-- C10: the derived duration is never validated — a row whose dropoff
parses earlier than its pickup keeps its (negative) duration and the
table keeps the row. -/
theorem negative_duration_retained (raw : Table) (i : Nat) (sp sd : String)
    (tp td : DateTime)
    (hp : "tpep_pickup_datetime" ∈ names raw)
    (hd : "tpep_dropoff_datetime" ∈ names raw)
    (hnd : "trip_duration_minutes" ∉ names raw)
    (hip : (colD raw "tpep_pickup_datetime")[i]? = some (.str sp))
    (hid : (colD raw "tpep_dropoff_datetime")[i]? = some (.str sd))
    (hps : parseDatetime sp = some tp) (hds : parseDatetime sd = some td)
    (hlt : td.toMin < tp.toMin) :
    (colD (load_data raw) "trip_duration_minutes")[i]? =
      some (.num ((td.toMin - tp.toMin : Int) : Rat)) ∧
    ((td.toMin - tp.toMin : Int) : Rat) < 0 ∧
    nRows (load_data raw) = nRows raw := by
  refine ⟨?_, ?_, nRows_load_data raw hnd⟩
  · have e := load_data_of_mem hp hd
    have hdur : colD (load_data raw) "trip_duration_minutes" =
        List.zipWith durationCell
          ((colD raw "tpep_pickup_datetime").map toDatetimeCell)
          ((colD raw "tpep_dropoff_datetime").map toDatetimeCell) := by
      unfold colD
      rw [e, getCol_setCol_self]
      rfl
    rw [hdur]
    have h1 : ((colD raw "tpep_pickup_datetime").map toDatetimeCell)[i]? =
        some (.dt tp) := by
      rw [List.getElem?_map, hip]
      simp [toDatetimeCell, hps]
    have h2 : ((colD raw "tpep_dropoff_datetime").map toDatetimeCell)[i]? =
        some (.dt td) := by
      rw [List.getElem?_map, hid]
      simp [toDatetimeCell, hds]
    exact (List.getElem?_zipWith_eq_some).mpr ⟨_, _, h1, h2, rfl⟩
  · have : td.toMin - tp.toMin < (0 : Int) := by omega
    exact_mod_cast this

/-- C10 witness: dropoff one hour before pickup gives duration -60
minutes and the row is kept. -/
theorem negative_duration_retained_witness :
    ("tpep_pickup_datetime" ∈ names
      [("tpep_pickup_datetime", [CellVal.str "2024-01-01 10:00"]),
       ("tpep_dropoff_datetime", [CellVal.str "2024-01-01 09:00"])]) ∧
    ((colD [("tpep_pickup_datetime", [CellVal.str "2024-01-01 10:00"]),
       ("tpep_dropoff_datetime", [CellVal.str "2024-01-01 09:00"])]
       "tpep_pickup_datetime")[0]? = some (.str "2024-01-01 10:00")) ∧
    (∃ tp td : DateTime, parseDatetime "2024-01-01 10:00" = some tp ∧
      parseDatetime "2024-01-01 09:00" = some td ∧ td.toMin < tp.toMin ∧
      (colD (load_data [("tpep_pickup_datetime", [CellVal.str "2024-01-01 10:00"]),
          ("tpep_dropoff_datetime", [CellVal.str "2024-01-01 09:00"])])
          "trip_duration_minutes")[0]? =
        some (.num ((td.toMin - tp.toMin : Int) : Rat)) ∧
      ((td.toMin - tp.toMin : Int) : Rat) < 0 ∧
      nRows (load_data [("tpep_pickup_datetime", [CellVal.str "2024-01-01 10:00"]),
          ("tpep_dropoff_datetime", [CellVal.str "2024-01-01 09:00"])]) =
        nRows [("tpep_pickup_datetime", [CellVal.str "2024-01-01 10:00"]),
          ("tpep_dropoff_datetime", [CellVal.str "2024-01-01 09:00"])]) := by
  refine ⟨by decide, by decide,
    ⟨⟨2024, 1, 1, 10, 0⟩, ⟨2024, 1, 1, 9, 0⟩, by decide, by decide, by decide, ?_⟩⟩
  exact (negative_duration_retained
    [("tpep_pickup_datetime", [CellVal.str "2024-01-01 10:00"]),
     ("tpep_dropoff_datetime", [CellVal.str "2024-01-01 09:00"])]
    0 "2024-01-01 10:00" "2024-01-01 09:00" ⟨2024, 1, 1, 10, 0⟩ ⟨2024, 1, 1, 9, 0⟩
    (by decide) (by decide) (by decide) (by decide) (by decide)
    (by decide) (by decide) (by decide))

end

end TaxiApp
